import Mathlib

/-!
Shallow embedding of `src/script.js` (portfolio page interactivity):
the modal lightbox state machine, the language toggle, the two
smooth-scroll click handlers, and the scroll spy.  DOM elements are
modelled as records of the fields the script reads and writes; each
event handler becomes a function on an explicit state.  A handler that
can throw a `TypeError` (an unguarded DOM access on a missing element)
returns `Option`, with `none` for the throw; the thrown case leaves the
state unchanged because every such access happens before any mutation.
-/

namespace Portfolio

/-! ## Modal lightbox (script.js lines 226-290)

A work item is a `.work-item` element together with the attributes the
modal code reads from it: the `src` of its inner `img`, and the
`data-title`, `data-medium`, `data-year` attributes. -/

structure WorkItem where
  imgSrc : String
  title : String
  medium : String
  year : String
  deriving Repr, DecidableEq

/-- The mutable state the modal code touches: the module-level
`currentIndex`, whether `#art-modal` has the `active` class, and the
contents of `#modal-image`, `#modal-title`, `#modal-meta`. -/
structure ModalState where
  currentIndex : Nat
  active : Bool
  imgSrc : String
  titleText : String
  metaText : String
  deriving Repr, DecidableEq

/-- Separator of the `modal-meta` template literal on line 240.  The
source file's bytes there are `C3 A2 E2 82 AC E2 80 9D`: the three
characters U+00E2, U+20AC, U+201D (an em dash that went through a
UTF-8 → Windows-1252 → UTF-8 round trip), not an em dash. -/
def metaSep : String := " â€” "

/-- `openModal(index)` (lines 236-243).  `items[index]` is `undefined`
when `index` is out of range and `item.querySelector("img")` then
throws before any assignment, hence the `none` branch. -/
def openModal (items : List WorkItem) (index : Nat) : Option ModalState :=
  match items.get? index with
  | some item => some
      { currentIndex := index
        active := true
        imgSrc := item.imgSrc
        titleText := item.title
        metaText := item.medium ++ metaSep ++ item.year }
  | none => none

/-- `showPrev` (line 252): `openModal((currentIndex - 1 + items.length) % items.length)`.
With `currentIndex : Nat` and `items.length ≥ 1` the JS index equals
`(currentIndex + items.length - 1) % items.length`; with no items the JS
modulus is `NaN` and `items[NaN]` makes `openModal` throw. -/
def showPrev (items : List WorkItem) (s : ModalState) : Option ModalState :=
  if items.length = 0 then none
  else openModal items ((s.currentIndex + items.length - 1) % items.length)

/-- `showNext` (line 253): `openModal((currentIndex + 1) % items.length)`. -/
def showNext (items : List WorkItem) (s : ModalState) : Option ModalState :=
  if items.length = 0 then none
  else openModal items ((s.currentIndex + 1) % items.length)

/-- Keydown handler (lines 285-290).  The JS body is a guard
`if (!modal.classList.contains("active")) return;` followed by three
independent `if`s on `e.key`; since the three key literals are distinct
the chain below is extensionally the same code. -/
def keydown (items : List WorkItem) (k : String) (s : ModalState) : Option ModalState :=
  if !s.active then some s
  else if k = "ArrowLeft" then showPrev items s
  else if k = "ArrowRight" then showNext items s
  else if k = "Escape" then some { s with active := false }
  else some s

/-- The user events the modal code wires handlers for: a click on work
item `i` (one listener per item, line 246), the close button (line 249),
the prev/next buttons (lines 255-256), the overlay halves
(lines 281-282), and a keydown (line 285). -/
inductive MEvent where
  | itemClick (i : Nat)
  | closeClick
  | prevClick
  | nextClick
  | overlayLeft
  | overlayRight
  | key (k : String)
  deriving Repr, DecidableEq

/-- Dispatch of one event to its handler. -/
def step (items : List WorkItem) (e : MEvent) (s : ModalState) : Option ModalState :=
  match e with
  | .itemClick i => openModal items i
  | .closeClick => some { s with active := false }
  | .prevClick => showPrev items s
  | .nextClick => showNext items s
  | .overlayLeft => showPrev items s
  | .overlayRight => showNext items s
  | .key k => keydown items k s

/-- An event the page can actually produce: item-click listeners exist
only for the indices `0 ≤ i < items.length` (line 246 attaches one per
item). -/
def validEvent (items : List WorkItem) : MEvent → Bool
  | .itemClick i => i < items.length
  | _ => true

/-- Running a sequence of events; a thrown handler aborts the run. -/
def run (items : List WorkItem) : List MEvent → ModalState → Option ModalState
  | [], s => some s
  | e :: es, s => (step items e s).bind (run items es)

/-- `let currentIndex = 0` (line 233) with the modal initially closed;
the image/title/meta elements start with whatever the HTML put there. -/
def initModal (img ttl mta : String) : ModalState :=
  { currentIndex := 0, active := false, imgSrc := img, titleText := ttl, metaText := mta }

example : openModal [⟨"a.jpg", "A", "Oil", "2020"⟩] 0 =
    some ⟨0, true, "a.jpg", "A", "Oil â€” 2020"⟩ := by decide

example : metaSep.data = [' ', Char.ofNat 0xE2, Char.ofNat 0x20AC, Char.ofNat 0x201D, ' '] := by
  decide

/-! ## Language toggle (script.js lines 304-317)

The handler selects `[data-en]` elements, so every affected element has
a `data-en` attribute; `data-fr` may be missing, in which case
`el.dataset[currentLang]` is `undefined` and assigning it to
`textContent` stores the string `"undefined"` (WebIDL DOMString
conversion). -/

structure LangEl where
  text : String
  dataEn : String
  dataFr : Option String
  deriving Repr, DecidableEq

/-- `el.dataset[lang]` for an element matched by `[data-en]`. -/
def datasetGet (el : LangEl) (lang : String) : Option String :=
  if lang = "en" then some el.dataEn
  else if lang = "fr" then el.dataFr
  else none

/-- `el.textContent = el.dataset[currentLang]` (line 315). -/
def setTextFromDataset (lang : String) (el : LangEl) : LangEl :=
  { el with text := (datasetGet el lang).getD "undefined" }

/-- The mutable state the toggle handler touches: the module-level
`currentLang` (line 307), the toggle control's own text, and the
`[data-en]` elements in document order. -/
structure LangState where
  currentLang : String
  toggleLabel : String
  els : List LangEl
  deriving Repr, DecidableEq

/-- The `langToggle` click handler (lines 309-317). -/
def toggleClick (s : LangState) : LangState :=
  let newLang := if s.currentLang = "en" then "fr" else "en"
  { currentLang := newLang
    toggleLabel := if newLang = "en" then "FR" else "EN"
    els := s.els.map (setTextFromDataset newLang) }

example :
    toggleClick ⟨"en", "FR", [⟨"Hi", "Hi", some "Salut"⟩]⟩ =
      ⟨"fr", "EN", [⟨"Salut", "Hi", some "Salut"⟩]⟩ := by decide

/-! ## Navigation-link clicks (script.js lines 57-84 and 296-302)

Two listeners fire on a `.nav-link` click.  The block at lines 296-302
is attached at script evaluation, before `DOMContentLoaded` registers
`initSmoothScroll`'s listener, so it runs first; it calls
`document.querySelector(href).scrollIntoView(...)` with no null check
and throws a `TypeError` when no element matches the fragment (after
`preventDefault`, before any mutation).  `initSmoothScroll`'s listener
(lines 60-82) guards with `if (targetSection)` and is a no-op in that
case.  An exception in one listener does not stop dispatch to the
other. -/

structure Sec where
  id : String
  offsetTop : Int
  offsetHeight : Int
  deriving Repr, DecidableEq

structure NavLink where
  href : String
  fontWeight : String
  deriving Repr, DecidableEq

/-- Observable page state the two click handlers touch. -/
structure PageState where
  scrollY : Int
  navLinks : List NavLink
  deriving Repr, DecidableEq

/-- `document.querySelector(frag)` over the page's sections: the first
element whose id matches the fragment. -/
def findSection (sections : List Sec) (frag : String) : Option Sec :=
  sections.find? (fun sec => "#" ++ sec.id = frag)

/-- `updateActiveLink` (lines 125-131): all links to weight 500, then
the clicked one to 700. -/
def updateActiveLink (linkIdx : Nat) (links : List NavLink) : List NavLink :=
  (links.map (fun l => { l with fontWeight := "500" })).mapIdx
    (fun j l => if j = linkIdx then { l with fontWeight := "700" } else l)

/-- `initSmoothScroll`'s click listener (lines 60-82): scrolls to
`offsetTop - navHeight` and updates the active link, or does nothing
when the fragment matches no section. -/
def clickSmoothScroll (sections : List Sec) (navHeight : Int) (linkIdx : Nat)
    (st : PageState) : PageState :=
  match st.navLinks.get? linkIdx with
  | none => st
  | some link =>
    match findSection sections link.href with
    | some sec =>
        { scrollY := sec.offsetTop - navHeight
          navLinks := updateActiveLink linkIdx st.navLinks }
    | none => st

/-- The second smooth-scroll listener (lines 296-302):
`querySelector(href).scrollIntoView({behavior: "smooth"})` puts the
section's top at the top of the viewport; `none` is the `TypeError` on
a missing section, thrown before any mutation. -/
def clickScrollIntoView (sections : List Sec) (linkIdx : Nat)
    (st : PageState) : Option PageState :=
  match st.navLinks.get? linkIdx with
  | none => some st
  | some link =>
    match findSection sections link.href with
    | some sec => some { st with scrollY := sec.offsetTop }
    | none => none

/-- Outcome of dispatching one click on nav link `linkIdx`: the final
page state and whether an uncaught exception escaped a listener. -/
structure ClickResult where
  state : PageState
  threw : Bool
  deriving Repr, DecidableEq

/-- Full dispatch of a nav-link click: the lines-296-302 listener first
(attachment order), then `initSmoothScroll`'s; a throw in the first
leaves the state as it was and does not stop the second. -/
def navLinkClick (sections : List Sec) (navHeight : Int) (linkIdx : Nat)
    (st : PageState) : ClickResult :=
  match clickScrollIntoView sections linkIdx st with
  | some st1 => { state := clickSmoothScroll sections navHeight linkIdx st1, threw := false }
  | none => { state := clickSmoothScroll sections navHeight linkIdx st, threw := true }

/-! ## Scroll spy (script.js lines 94-119) -/

/-- The loop body's condition (line 107): `scrollY >= sectionTop &&
scrollY < sectionTop + sectionHeight` with
`sectionTop = offsetTop - navHeight - 100`. -/
def inBand (navHeight scrollY : Int) (sec : Sec) : Bool :=
  sec.offsetTop - navHeight - 100 ≤ scrollY &&
    scrollY < sec.offsetTop - navHeight - 100 + sec.offsetHeight

/-- `currentSection` after the `sections.forEach` loop (lines 101-110):
starts `''`, overwritten by each section whose band contains `scrollY`,
so the last match in document order wins. -/
def spyCurrent (sections : List Sec) (navHeight scrollY : Int) : String :=
  sections.foldl (fun cur sec => if inBand navHeight scrollY sec then sec.id else cur) ""

/-- The `navLinks.forEach` loop (lines 112-117): weight 500, then 700
for a link whose `href` is `"#" + currentSection`. -/
def spyScroll (sections : List Sec) (navHeight scrollY : Int)
    (links : List NavLink) : List NavLink :=
  links.map (fun l =>
    if l.href = "#" ++ spyCurrent sections navHeight scrollY then
      { l with fontWeight := "700" }
    else { l with fontWeight := "500" })

example :
    spyCurrent [⟨"a", 0, 500⟩, ⟨"b", 400, 500⟩] 70 300 = "b" := by decide

/-! ## Helper lemmas about the modal operations -/

theorem openModal_of_lt (items : List WorkItem) (i : Nat) (h : i < items.length) :
    openModal items i = some
      { currentIndex := i
        active := true
        imgSrc := (items.get ⟨i, h⟩).imgSrc
        titleText := (items.get ⟨i, h⟩).title
        metaText := (items.get ⟨i, h⟩).medium ++ metaSep ++ (items.get ⟨i, h⟩).year } := by
  simp [openModal, List.get?_eq_get h, List.getElem?_eq_getElem h]

theorem openModal_fields (items : List WorkItem) (i : Nat) (s : ModalState)
    (h : openModal items i = some s) :
    s.currentIndex = i ∧ s.active = true ∧ i < items.length := by
  unfold openModal at h
  cases hi : items.get? i with
  | none => rw [hi] at h; exact absurd h (by simp)
  | some item =>
      rw [hi] at h
      obtain ⟨hlt, -⟩ := List.get?_eq_some.mp hi
      refine ⟨?_, ?_, hlt⟩
      · cases h; rfl
      · cases h; rfl

theorem showPrev_eq (items : List WorkItem) (s : ModalState) (hN : 0 < items.length) :
    showPrev items s =
      openModal items ((s.currentIndex + items.length - 1) % items.length) := by
  rw [showPrev, if_neg (by omega)]

theorem showNext_eq (items : List WorkItem) (s : ModalState) (hN : 0 < items.length) :
    showNext items s = openModal items ((s.currentIndex + 1) % items.length) := by
  rw [showNext, if_neg (by omega)]

/-- `setTextFromDataset` only changes the text, so a second application
overrides the first. -/
theorem setText_setText (a b : String) (el : LangEl) :
    setTextFromDataset a (setTextFromDataset b el) = setTextFromDataset a el := rfl

theorem setText_self (lang : String) (el : LangEl)
    (h : el.text = (datasetGet el lang).getD "undefined") :
    setTextFromDataset lang el = el := by
  unfold setTextFromDataset
  rw [← h]

theorem openModal_isSome (items : List WorkItem) (i : Nat) (h : i < items.length) :
    ∃ s, openModal items i = some s ∧ s.currentIndex = i ∧ s.active = true :=
  ⟨_, openModal_of_lt items i h, rfl, rfl⟩

theorem showPrev_bound (items : List WorkItem) (s : ModalState) (hN : 0 < items.length) :
    ∃ s2, showPrev items s = some s2 ∧
      s2.currentIndex = (s.currentIndex + items.length - 1) % items.length ∧
      s2.active = true ∧ s2.currentIndex < items.length := by
  rw [showPrev_eq items s hN]
  have hlt := Nat.mod_lt (s.currentIndex + items.length - 1) hN
  obtain ⟨s2, h2, hc, ha⟩ := openModal_isSome items _ hlt
  exact ⟨s2, h2, hc, ha, hc ▸ hlt⟩

theorem showNext_bound (items : List WorkItem) (s : ModalState) (hN : 0 < items.length) :
    ∃ s2, showNext items s = some s2 ∧
      s2.currentIndex = (s.currentIndex + 1) % items.length ∧
      s2.active = true ∧ s2.currentIndex < items.length := by
  rw [showNext_eq items s hN]
  have hlt := Nat.mod_lt (s.currentIndex + 1) hN
  obtain ⟨s2, h2, hc, ha⟩ := openModal_isSome items _ hlt
  exact ⟨s2, h2, hc, ha, hc ▸ hlt⟩

theorem keydown_bound (items : List WorkItem) (k : String) (s : ModalState)
    (hN : 0 < items.length) (hs : s.currentIndex < items.length) :
    ∃ s2, keydown items k s = some s2 ∧ s2.currentIndex < items.length := by
  cases ha : s.active with
  | false => exact ⟨s, by simp [keydown, ha], hs⟩
  | true =>
    by_cases h1 : k = "ArrowLeft"
    · subst h1
      obtain ⟨s2, h2, -, -, hb⟩ := showPrev_bound items s hN
      exact ⟨s2, by simp [keydown, ha, h2], hb⟩
    · by_cases h2 : k = "ArrowRight"
      · subst h2
        obtain ⟨s2, h2', -, -, hb⟩ := showNext_bound items s hN
        exact ⟨s2, by simp [keydown, ha, h2'], hb⟩
      · by_cases h3 : k = "Escape"
        · subst h3
          exact ⟨{ s with active := false }, by simp [keydown, ha], hs⟩
        · exact ⟨s, by simp [keydown, ha, h1, h2, h3], hs⟩

theorem step_bound (items : List WorkItem) (e : MEvent) (s : ModalState)
    (hN : 0 < items.length) (hv : validEvent items e = true)
    (hs : s.currentIndex < items.length) :
    ∃ s2, step items e s = some s2 ∧ s2.currentIndex < items.length := by
  cases e with
  | itemClick i =>
      have hi : i < items.length := by simpa [validEvent] using hv
      obtain ⟨s2, h2, hc, -⟩ := openModal_isSome items i hi
      exact ⟨s2, h2, by rw [hc]; exact hi⟩
  | closeClick => exact ⟨{ s with active := false }, rfl, hs⟩
  | prevClick =>
      obtain ⟨s2, h2, -, -, hb⟩ := showPrev_bound items s hN
      exact ⟨s2, h2, hb⟩
  | nextClick =>
      obtain ⟨s2, h2, -, -, hb⟩ := showNext_bound items s hN
      exact ⟨s2, h2, hb⟩
  | overlayLeft =>
      obtain ⟨s2, h2, -, -, hb⟩ := showPrev_bound items s hN
      exact ⟨s2, h2, hb⟩
  | overlayRight =>
      obtain ⟨s2, h2, -, -, hb⟩ := showNext_bound items s hN
      exact ⟨s2, h2, hb⟩
  | key k => exact keydown_bound items k s hN hs

theorem run_bound (items : List WorkItem) : ∀ (es : List MEvent) (s : ModalState),
    0 < items.length → es.all (validEvent items) = true →
    s.currentIndex < items.length →
    ∃ s2, run items es s = some s2 ∧ s2.currentIndex < items.length := by
  intro es
  induction es with
  | nil => exact fun s _ _ hs => ⟨s, rfl, hs⟩
  | cons e rest ih =>
      intro s hN hv hs
      simp only [List.all_cons, Bool.and_eq_true] at hv
      obtain ⟨s1, h1, hb1⟩ := step_bound items e s hN hv.1 hs
      obtain ⟨s2, h2, hb2⟩ := ih s1 hN hv.2 hb1
      refine ⟨s2, ?_, hb2⟩
      show (step items e s).bind (run items rest) = some s2
      rw [h1]
      exact h2

theorem run_replicate_next (items : List WorkItem) : ∀ (k i : Nat) (s : ModalState),
    i < items.length → openModal items i = some s →
    run items (List.replicate k .nextClick) s =
      openModal items ((i + k) % items.length) := by
  intro k
  induction k with
  | zero =>
      intro i s hi hs
      rw [List.replicate_zero, Nat.add_zero, Nat.mod_eq_of_lt hi, hs]
      rfl
  | succ k ih =>
      intro i s hi hs
      have hN : 0 < items.length := by omega
      obtain ⟨hci, -, -⟩ := openModal_fields items i s hs
      have hlt1 : (i + 1) % items.length < items.length := Nat.mod_lt _ hN
      obtain ⟨s1, hs1, -, -⟩ := openModal_isSome items _ hlt1
      rw [List.replicate_succ]
      show (step items .nextClick s).bind (run items (List.replicate k .nextClick)) =
        openModal items ((i + (k + 1)) % items.length)
      have hstep : step items .nextClick s = openModal items ((i + 1) % items.length) := by
        show showNext items s = openModal items ((i + 1) % items.length)
        rw [showNext_eq items s hN, hci]
      rw [hstep, hs1]
      show run items (List.replicate k .nextClick) s1 = _
      have harg : i + 1 + k = i + (k + 1) := by omega
      rw [ih ((i + 1) % items.length) s1 hlt1 hs1, Nat.mod_add_mod, harg]

/-! ## Claim theorems -/

/-- Concrete work item exhibiting the metadata-separator bug. -/
def bugItems : List WorkItem := [⟨"sunset.jpg", "Sunset", "Oil", "2020"⟩]

/-- C1: opening item i does set the index, image source, title and the
active mark as claimed, but the metadata text is NOT
`"<medium> — <year>"`: the separator in the source (line 240) is the
mojibake `" â€” "` (U+00E2 U+20AC U+201D, a double-encoded em dash),
so the displayed string for the item `(Oil, 2020)` is
`"Oil â€” 2020"`, not `"Oil — 2020"`. -/
theorem openModal_meta_mojibake :
    openModal bugItems 0 =
      some ⟨0, true, "sunset.jpg", "Sunset", "Oil â€” 2020"⟩ ∧
    ("Oil â€” 2020" : String) ≠ "Oil — 2020" ∧
    metaSep.data = [' ', Char.ofNat 0xE2, Char.ofNat 0x20AC, Char.ofNat 0x201D, ' '] ∧
    (" — " : String).data = [' ', Char.ofNat 0x2014, ' '] :=
  ⟨by decide, by decide, by decide, by decide⟩

/-- C8: while the modal is not active, the keydown handler returns at
the guard and changes nothing, whatever the key. -/
theorem keydown_closed_noop (items : List WorkItem) (k : String) (s : ModalState)
    (h : s.active = false) : keydown items k s = some s := by
  simp [keydown, h]

theorem keydown_closed_noop_witness :
    (initModal "i" "t" "m").active = false ∧
    keydown [] "ArrowLeft" (initModal "i" "t" "m") = some (initModal "i" "t" "m") :=
  ⟨rfl, keydown_closed_noop [] "ArrowLeft" (initModal "i" "t" "m") rfl⟩

/-- C7: closing — by the close button (unconditional) or by Escape
while the modal is active — only clears the active mark: the current
index, image source, title text and metadata text are all kept. -/
theorem modal_close_frame (items : List WorkItem) (s : ModalState) (h : s.active = true) :
    step items .closeClick s =
      some ⟨s.currentIndex, false, s.imgSrc, s.titleText, s.metaText⟩ ∧
    keydown items "Escape" s =
      some ⟨s.currentIndex, false, s.imgSrc, s.titleText, s.metaText⟩ := by
  constructor
  · rfl
  · simp [keydown, h]

theorem modal_close_frame_witness :
    (⟨3, true, "i", "t", "m"⟩ : ModalState).active = true ∧
    step [] .closeClick ⟨3, true, "i", "t", "m"⟩ = some ⟨3, false, "i", "t", "m"⟩ ∧
    keydown [] "Escape" ⟨3, true, "i", "t", "m"⟩ = some ⟨3, false, "i", "t", "m"⟩ :=
  ⟨rfl, modal_close_frame [] ⟨3, true, "i", "t", "m"⟩ rfl⟩

/-- C5: one toggle click from the "en" state sets the flag to "fr",
labels the control "EN" (the now-inactive language's code), and rewrites
every tagged element's text from its dataset for the new language; a
value present for the new language is installed verbatim.  A second
click goes back to flag "en" with label "FR". -/
theorem langToggle_click_contract (s : LangState) (h : s.currentLang = "en") :
    (toggleClick s).currentLang = "fr" ∧
    (toggleClick s).toggleLabel = "EN" ∧
    (toggleClick s).els = s.els.map (setTextFromDataset "fr") ∧
    (toggleClick (toggleClick s)).currentLang = "en" ∧
    (toggleClick (toggleClick s)).toggleLabel = "FR" ∧
    ∀ el v, datasetGet el "fr" = some v → (setTextFromDataset "fr" el).text = v := by
  refine ⟨by simp [toggleClick, h], by simp [toggleClick, h], by simp [toggleClick, h],
    ?_, ?_, ?_⟩
  · simp [toggleClick, h]
  · simp [toggleClick, h]
  · intro el v hv
    simp [setTextFromDataset, hv]

/-- Concrete language state for the C5 witness. -/
def witLangC5 : LangState := ⟨"en", "FR", [⟨"Hi", "Hi", some "Salut"⟩]⟩

theorem langToggle_click_contract_witness :
    witLangC5.currentLang = "en" ∧
    ((toggleClick witLangC5).currentLang = "fr" ∧
     (toggleClick witLangC5).toggleLabel = "EN" ∧
     (toggleClick witLangC5).els = witLangC5.els.map (setTextFromDataset "fr") ∧
     (toggleClick (toggleClick witLangC5)).currentLang = "en" ∧
     (toggleClick (toggleClick witLangC5)).toggleLabel = "FR" ∧
     ∀ el v, datasetGet el "fr" = some v → (setTextFromDataset "fr" el).text = v) :=
  ⟨rfl, langToggle_click_contract witLangC5 rfl⟩

/-- Concrete language state refuting C4 as stated: the element's
initial text "hello" differs from its `data-en` value "Hi". -/
def cexLangState : LangState := ⟨"en", "FR", [⟨"hello", "Hi", some "Salut"⟩]⟩

/-- C4 counterexample: two toggle clicks do NOT restore an arbitrary
initial text — the element starts at "hello" and ends at its `data-en`
value "Hi". -/
theorem langToggle_double_cex :
    cexLangState.els.map LangEl.text = ["hello"] ∧
    (toggleClick (toggleClick cexLangState)).els.map LangEl.text = ["Hi"] ∧
    (["Hi"] : List String) ≠ ["hello"] :=
  ⟨by decide, by decide, by decide⟩

/-- C4 amended: two toggle clicks restore the flag and set every tagged
element's text to its dataset value for the originally active language;
the text round-trips exactly for elements whose initial text already
equals that value (e.g. any element rendered by a previous toggle), not
for arbitrary initial text. -/
theorem langToggle_double_amended (s : LangState)
    (h : s.currentLang = "en" ∨ s.currentLang = "fr") :
    (toggleClick (toggleClick s)).currentLang = s.currentLang ∧
    (toggleClick (toggleClick s)).els = s.els.map (setTextFromDataset s.currentLang) ∧
    ∀ (j : Nat) (el : LangEl), s.els[j]? = some el →
      el.text = (datasetGet el s.currentLang).getD "undefined" →
      (toggleClick (toggleClick s)).els[j]? = some el := by
  have hmain : (toggleClick (toggleClick s)).currentLang = s.currentLang ∧
      (toggleClick (toggleClick s)).els = s.els.map (setTextFromDataset s.currentLang) := by
    rcases h with h | h
    · constructor
      · simp [toggleClick, h]
      · simp [toggleClick, h, List.map_map]
        exact fun a _ => rfl
    · constructor
      · simp [toggleClick, h]
      · simp [toggleClick, h, List.map_map]
        exact fun a _ => rfl
  refine ⟨hmain.1, hmain.2, ?_⟩
  intro j el hj htext
  rw [hmain.2, List.getElem?_map, hj]
  simp [setText_self s.currentLang el htext]

/-- Concrete language state for the C4 witness: the element's text
equals its `data-en` value, so the two-click round trip holds there. -/
def witLangC4 : LangState := ⟨"en", "FR", [⟨"Hi", "Hi", some "Salut"⟩]⟩

/-- C2: from the open state on item i (N = item count ≥ 1), prev is
`openModal((i + N - 1) % N)` and next is `openModal((i + 1) % N)`;
prev followed by next restores the exact open(i) state, and N
consecutive next clicks also restore it. -/
theorem modal_prev_next_roundtrip (items : List WorkItem) (i : Nat) (s : ModalState)
    (hi : i < items.length) (hs : openModal items i = some s) :
    (showPrev items s).bind (showNext items) = some s ∧
    run items (List.replicate items.length .nextClick) s = some s ∧
    showPrev items s = openModal items ((i + items.length - 1) % items.length) ∧
    showNext items s = openModal items ((i + 1) % items.length) := by
  have hN : 0 < items.length := by omega
  obtain ⟨hci, -, -⟩ := openModal_fields items i s hs
  have hprev : showPrev items s =
      openModal items ((i + items.length - 1) % items.length) := by
    rw [showPrev_eq items s hN, hci]
  have hnext : showNext items s = openModal items ((i + 1) % items.length) := by
    rw [showNext_eq items s hN, hci]
  refine ⟨?_, ?_, hprev, hnext⟩
  · have hjlt : (i + items.length - 1) % items.length < items.length :=
      Nat.mod_lt _ hN
    obtain ⟨s1, hs1, hci1, -⟩ := openModal_isSome items _ hjlt
    rw [hprev, hs1]
    show showNext items s1 = some s
    rw [showNext_eq items s1 hN, hci1, Nat.mod_add_mod]
    have harg : i + items.length - 1 + 1 = i + items.length := by omega
    rw [harg, Nat.add_mod_right, Nat.mod_eq_of_lt hi, hs]
  · rw [run_replicate_next items items.length i s hi hs, Nat.add_mod_right,
      Nat.mod_eq_of_lt hi, hs]

/-- Concrete two-item gallery for the C2 witness. -/
def witItemsC2 : List WorkItem :=
  [⟨"a.jpg", "A", "Oil", "2019"⟩, ⟨"b.jpg", "B", "Ink", "2020"⟩]

/-- Open state on item 0 of `witItemsC2`, as `openModal` produces it. -/
def witModalC2 : ModalState := ⟨0, true, "a.jpg", "A", "Oil â€” 2019"⟩

theorem modal_prev_next_roundtrip_witness :
    (0 < witItemsC2.length ∧ openModal witItemsC2 0 = some witModalC2) ∧
    ((showPrev witItemsC2 witModalC2).bind (showNext witItemsC2) = some witModalC2 ∧
     run witItemsC2 (List.replicate witItemsC2.length .nextClick) witModalC2 =
       some witModalC2 ∧
     showPrev witItemsC2 witModalC2 =
       openModal witItemsC2 ((0 + witItemsC2.length - 1) % witItemsC2.length) ∧
     showNext witItemsC2 witModalC2 =
       openModal witItemsC2 ((0 + 1) % witItemsC2.length)) :=
  ⟨⟨by decide, by decide⟩,
    modal_prev_next_roundtrip witItemsC2 0 witModalC2 (by decide) (by decide)⟩

/-- C6: with at least one work item, the current index starts in
bounds (it is 0) and stays strictly below the item count across every
sequence of events the page can produce — the modulo wraparound in
prev/next and the per-item click listeners keep it an invariant. -/
theorem modal_index_invariant (items : List WorkItem) (es : List MEvent)
    (img ttl mta : String) (hN : 0 < items.length)
    (hv : es.all (validEvent items) = true) :
    (initModal img ttl mta).currentIndex < items.length ∧
    ∃ s2, run items es (initModal img ttl mta) = some s2 ∧
      s2.currentIndex < items.length :=
  ⟨hN, run_bound items es (initModal img ttl mta) hN hv hN⟩

/-- Concrete gallery and event sequence for the C6 witness. -/
def witItemsC6 : List WorkItem := [⟨"a.jpg", "A", "Oil", "2019"⟩]

/-- Event sequence exercising open, prev, next (via key), and close. -/
def witEventsC6 : List MEvent :=
  [.itemClick 0, .prevClick, .key "ArrowRight", .closeClick, .nextClick]

theorem modal_index_invariant_witness :
    (0 < witItemsC6.length ∧ witEventsC6.all (validEvent witItemsC6) = true) ∧
    ((initModal "i" "t" "m").currentIndex < witItemsC6.length ∧
     ∃ s2, run witItemsC6 witEventsC6 (initModal "i" "t" "m") = some s2 ∧
       s2.currentIndex < witItemsC6.length) :=
  ⟨⟨by decide, by decide⟩,
    modal_index_invariant witItemsC6 witEventsC6 "i" "t" "m" (by decide) (by decide)⟩

/-- C10: the prev/next buttons and the overlay halves run
showPrev/showNext with no open-state guard, so clicking any of them
while the modal is closed invokes `openModal` on
`(currentIndex + N - 1) % N` resp. `(currentIndex + 1) % N`, which
marks the modal active and repopulates its content from that item. -/
theorem modal_nav_unguarded_reopen (items : List WorkItem) (s : ModalState)
    (hN : 0 < items.length) (hclosed : s.active = false) :
    step items .prevClick s =
      openModal items ((s.currentIndex + items.length - 1) % items.length) ∧
    step items .overlayLeft s = step items .prevClick s ∧
    step items .nextClick s =
      openModal items ((s.currentIndex + 1) % items.length) ∧
    step items .overlayRight s = step items .nextClick s ∧
    (∃ s1, step items .prevClick s = some s1 ∧ s1.active = true ∧
      s1.currentIndex = (s.currentIndex + items.length - 1) % items.length ∧
      ∃ item, items.get? s1.currentIndex = some item ∧
        s1.imgSrc = item.imgSrc ∧ s1.titleText = item.title ∧
        s1.metaText = item.medium ++ metaSep ++ item.year) ∧
    ∃ s1, step items .nextClick s = some s1 ∧ s1.active = true ∧
      s1.currentIndex = (s.currentIndex + 1) % items.length := by
  have hp : step items .prevClick s =
      openModal items ((s.currentIndex + items.length - 1) % items.length) :=
    showPrev_eq items s hN
  have hn : step items .nextClick s =
      openModal items ((s.currentIndex + 1) % items.length) :=
    showNext_eq items s hN
  refine ⟨hp, rfl, hn, rfl, ?_, ?_⟩
  · have hjlt : (s.currentIndex + items.length - 1) % items.length < items.length :=
      Nat.mod_lt _ hN
    refine ⟨_, by rw [hp]; exact openModal_of_lt items _ hjlt, rfl, rfl,
      items.get ⟨_, hjlt⟩, List.get?_eq_get hjlt, rfl, rfl, rfl⟩
  · have hjlt : (s.currentIndex + 1) % items.length < items.length :=
      Nat.mod_lt _ hN
    exact ⟨_, by rw [hn]; exact openModal_of_lt items _ hjlt, rfl, rfl⟩

/-- Concrete closed state and gallery for the C10 witness. -/
def witItemsC10 : List WorkItem := [⟨"a.jpg", "A", "Oil", "2019"⟩]

/-- A closed modal state with stale content. -/
def witClosedC10 : ModalState := ⟨0, false, "x", "y", "z"⟩

theorem modal_nav_unguarded_reopen_witness :
    (0 < witItemsC10.length ∧ witClosedC10.active = false) ∧
    (step witItemsC10 .prevClick witClosedC10 =
       openModal witItemsC10
         ((witClosedC10.currentIndex + witItemsC10.length - 1) % witItemsC10.length) ∧
     step witItemsC10 .overlayLeft witClosedC10 = step witItemsC10 .prevClick witClosedC10 ∧
     step witItemsC10 .nextClick witClosedC10 =
       openModal witItemsC10
         ((witClosedC10.currentIndex + 1) % witItemsC10.length) ∧
     step witItemsC10 .overlayRight witClosedC10 = step witItemsC10 .nextClick witClosedC10 ∧
     (∃ s1, step witItemsC10 .prevClick witClosedC10 = some s1 ∧ s1.active = true ∧
       s1.currentIndex =
         (witClosedC10.currentIndex + witItemsC10.length - 1) % witItemsC10.length ∧
       ∃ item, witItemsC10.get? s1.currentIndex = some item ∧
         s1.imgSrc = item.imgSrc ∧ s1.titleText = item.title ∧
         s1.metaText = item.medium ++ metaSep ++ item.year) ∧
     ∃ s1, step witItemsC10 .nextClick witClosedC10 = some s1 ∧ s1.active = true ∧
       s1.currentIndex = (witClosedC10.currentIndex + 1) % witItemsC10.length) :=
  ⟨⟨by decide, by decide⟩,
    modal_nav_unguarded_reopen witItemsC10 witClosedC10 (by decide) (by decide)⟩

theorem langToggle_double_amended_witness :
    (witLangC4.currentLang = "en" ∨ witLangC4.currentLang = "fr") ∧
    ((toggleClick (toggleClick witLangC4)).currentLang = witLangC4.currentLang ∧
     (toggleClick (toggleClick witLangC4)).els =
       witLangC4.els.map (setTextFromDataset witLangC4.currentLang) ∧
     ∀ (j : Nat) (el : LangEl), witLangC4.els[j]? = some el →
       el.text = (datasetGet el witLangC4.currentLang).getD "undefined" →
       (toggleClick (toggleClick witLangC4)).els[j]? = some el) :=
  ⟨Or.inl rfl, langToggle_double_amended witLangC4 (Or.inl rfl)⟩

theorem clickScrollIntoView_throws (sections : List Sec) (linkIdx : Nat)
    (st : PageState) (link : NavLink)
    (hl : st.navLinks.get? linkIdx = some link)
    (hfind : findSection sections link.href = none) :
    clickScrollIntoView sections linkIdx st = none := by
  unfold clickScrollIntoView
  simp only [hl, hfind]

theorem clickSmoothScroll_noop (sections : List Sec) (navHeight : Int)
    (linkIdx : Nat) (st : PageState) (link : NavLink)
    (hl : st.navLinks.get? linkIdx = some link)
    (hfind : findSection sections link.href = none) :
    clickSmoothScroll sections navHeight linkIdx st = st := by
  unfold clickSmoothScroll
  simp only [hl, hfind]

/-- C3 counterexample: on a page with one nav link `#ghost` and no
sections, the click leaves the state unchanged but is NOT silent: the
unguarded `querySelector(href).scrollIntoView` listener
(lines 296-302) throws a TypeError, so `threw = true`. -/
theorem navClick_missing_section_cex :
    navLinkClick [] 70 0 ⟨0, [⟨"#ghost", "500"⟩]⟩ =
      { state := ⟨0, [⟨"#ghost", "500"⟩]⟩, threw := true } := by decide

/-- C3 amended: clicking a nav link whose fragment matches no section
leaves the scroll position and every link's styling unchanged — the
guarded listener is a no-op — but the click is not a silent no-op: the
second, unguarded smooth-scroll listener throws an uncaught TypeError. -/
theorem navClick_missing_section_amended (sections : List Sec) (navHeight : Int)
    (linkIdx : Nat) (st : PageState) (link : NavLink)
    (hl : st.navLinks.get? linkIdx = some link)
    (hfind : findSection sections link.href = none) :
    (navLinkClick sections navHeight linkIdx st).state = st ∧
    (navLinkClick sections navHeight linkIdx st).threw = true := by
  have h1 := clickScrollIntoView_throws sections linkIdx st link hl hfind
  have h2 := clickSmoothScroll_noop sections navHeight linkIdx st link hl hfind
  unfold navLinkClick
  rw [h1]
  exact ⟨h2, rfl⟩

/-- Concrete page for the C3 witness. -/
def witPageC3 : PageState := ⟨120, [⟨"#about", "500"⟩, ⟨"#ghost", "700"⟩]⟩

/-- Sections of the C3 witness page: `#ghost` matches none of them. -/
def witSectionsC3 : List Sec := [⟨"about", 600, 400⟩]

theorem navClick_missing_section_amended_witness :
    (witPageC3.navLinks.get? 1 = some ⟨"#ghost", "700"⟩ ∧
     findSection witSectionsC3 "#ghost" = none) ∧
    ((navLinkClick witSectionsC3 70 1 witPageC3).state = witPageC3 ∧
     (navLinkClick witSectionsC3 70 1 witPageC3).threw = true) :=
  ⟨⟨by decide, by decide⟩,
    navClick_missing_section_amended witSectionsC3 70 1 witPageC3 ⟨"#ghost", "700"⟩
      (by decide) (by decide)⟩

theorem spyfold_no_match (nh sy : Int) : ∀ (l : List Sec) (acc : String),
    (∀ t ∈ l, inBand nh sy t = false) →
    l.foldl (fun cur sec => if inBand nh sy sec then sec.id else cur) acc = acc := by
  intro l
  induction l with
  | nil => intro acc _; rfl
  | cons x xs ih =>
      intro acc h
      rw [List.foldl_cons, if_neg (by simp [h x (by simp)])]
      exact ih acc (fun t ht => h t (by simp [ht]))

theorem spyCurrent_last_match (l1 l2 : List Sec) (sec : Sec) (nh sy : Int)
    (hband : inBand nh sy sec = true)
    (hafter : ∀ t ∈ l2, inBand nh sy t = false) :
    spyCurrent (l1 ++ sec :: l2) nh sy = sec.id := by
  unfold spyCurrent
  rw [List.foldl_append, List.foldl_cons, if_pos hband]
  exact spyfold_no_match nh sy l2 sec.id hafter

/-- C9: when section `sec`'s band `[offsetTop - navHeight - 100,
offsetTop - navHeight - 100 + offsetHeight)` contains `scrollY` and no
later section's band does, the scroll handler picks `sec` (the last
match in document order wins) and sets every nav link's weight to 700
exactly when its href is `"#" + sec.id`, and to 500 otherwise. -/
theorem scrollSpy_last_match_bold (l1 l2 : List Sec) (sec : Sec) (nh sy : Int)
    (links : List NavLink)
    (hband : inBand nh sy sec = true)
    (hafter : ∀ t ∈ l2, inBand nh sy t = false) :
    spyCurrent (l1 ++ sec :: l2) nh sy = sec.id ∧
    spyScroll (l1 ++ sec :: l2) nh sy links =
      links.map (fun l =>
        if l.href = "#" ++ sec.id then { l with fontWeight := "700" }
        else { l with fontWeight := "500" }) := by
  have hc := spyCurrent_last_match l1 l2 sec nh sy hband hafter
  refine ⟨hc, ?_⟩
  unfold spyScroll
  rw [hc]

/-- Sections of the C9 witness page, with overlapping bands at
`scrollY = 300`: both bands `[-170, 330)` and `[230, 730)` contain it,
and the later section `b` wins. -/
def witSectionsC9 : List Sec := [⟨"a", 0, 500⟩, ⟨"b", 400, 500⟩]

/-- Nav links of the C9 witness page. -/
def witLinksC9 : List NavLink := [⟨"#a", "700"⟩, ⟨"#b", "500"⟩]

theorem scrollSpy_last_match_bold_witness :
    (inBand 70 300 ⟨"b", 400, 500⟩ = true ∧
     ∀ t ∈ ([] : List Sec), inBand 70 300 t = false) ∧
    (spyCurrent ([⟨"a", 0, 500⟩] ++ ⟨"b", 400, 500⟩ :: []) 70 300 = "b" ∧
     spyScroll ([⟨"a", 0, 500⟩] ++ ⟨"b", 400, 500⟩ :: []) 70 300 witLinksC9 =
       witLinksC9.map (fun l =>
         if l.href = "#" ++ "b" then { l with fontWeight := "700" }
         else { l with fontWeight := "500" })) :=
  ⟨⟨by decide, by simp⟩,
    scrollSpy_last_match_bold [⟨"a", 0, 500⟩] [] ⟨"b", 400, 500⟩ 70 300 witLinksC9
      (by decide) (by simp)⟩

end Portfolio
